import Mathlib

/-!
Shallow embedding of the query-submission lifecycle of
`src/frontend/src/App.jsx` (the `App` component of the legal-document
search portal).

The component keeps four independent state cells (`useState`):
`query`, `response`, `loading`, `error`.  `handleSearch` validates the
query, issues one `fetch` to `POST http://localhost:8000/generate`, and
maps the outcome back into the cells.  `handleKeyPress` and the submit
button are the two presentation-layer entry points; both are guarded by
`loading`.

The network is modelled by a `FetchResult` parameter: the resolution the
single awaited `fetch` would produce (an HTTP response carrying a status
and a JSON-decode outcome, or a rejection carrying the failure message).
`handleSearchRun` returns the list of render-observable states (React
batches the state setters into one observable update per flush: one
batch before the `await`, one batch at resolution) together with the
list of network requests issued.
-/

namespace SearchPortal

/-- JSON values, as produced by `res.json()` and consumed by
`JSON.stringify`.  The component stores the parsed body without
inspecting it, so the embedding keeps the full generic value. -/
inductive Json where
  | null
  | bool (b : Bool)
  | num (n : Rat)
  | str (s : String)
  | arr (elems : List Json)
  | obj (fields : List (String × Json))
deriving Repr

/-- ECMAScript whitespace (WhiteSpace plus LineTerminator code points),
the set removed by `String.prototype.trim`. -/
def isJsWhitespace (c : Char) : Bool :=
  [0x9, 0xa, 0xb, 0xc, 0xd, 0x20, 0xa0, 0x1680,
   0x2000, 0x2001, 0x2002, 0x2003, 0x2004, 0x2005, 0x2006, 0x2007,
   0x2008, 0x2009, 0x200a, 0x2028, 0x2029, 0x202f, 0x205f, 0x3000,
   0xfeff].contains c.toNat

/-- JavaScript `String.prototype.trim`: strip leading and trailing
whitespace. -/
def jsTrim (s : String) : String :=
  ⟨((s.data.dropWhile isJsWhitespace).reverse.dropWhile
      isJsWhitespace).reverse⟩

/-- The four `useState` cells of `App` (App.jsx lines 5-8):
`query`, `response`, `loading`, `error`. -/
structure AppState where
  query : String
  response : Option Json
  loading : Bool
  error : Option String
deriving Repr

/-- Initial values of the four cells: `useState("")`, `useState(null)`,
`useState(false)`, `useState(null)`. -/
def initialState : AppState :=
  { query := "", response := none, loading := false, error := none }

/-- Resolution of the awaited `fetch`:
`resolved status body` is an HTTP response with the given status code,
`body` being the outcome `res.json()` would produce (`Except.error m`
when decoding throws an exception whose message is `m`);
`failed m` is a rejected fetch (transport failure) whose exception
carries message `m`. -/
inductive FetchResult where
  | resolved (status : Nat) (body : Except String Json)
  | failed (message : String)

/-- The `Response.ok` predicate of the fetch API: status in 200..299
(App.jsx line 29 reads `res.ok`). -/
def statusOk (status : Nat) : Bool :=
  200 ≤ status && status < 300

/-- One HTTP request as assembled by the `fetch` call
(App.jsx lines 21-27). -/
structure Request where
  method : String
  url : String
  contentType : String
  body : Json
deriving Repr

/-- The request `handleSearch` issues for a trimmed query:
`POST http://localhost:8000/generate`, header
`Content-Type: application/json`, body `JSON.stringify({ query })`. -/
def generateRequest (trimmed : String) : Request :=
  { method := "POST"
    url := "http://localhost:8000/generate"
    contentType := "application/json"
    body := Json.obj [("query", Json.str trimmed)] }

/-- The validation message of App.jsx line 12. -/
def validationMessage : String := "Please enter a search query"

/-- The fallback message of App.jsx lines 37-38. -/
def fallbackMessage : String :=
  "Failed to fetch response. Please ensure the backend is running."

/-- JavaScript `err.message || fallback` (App.jsx lines 36-38): the
fallback is used exactly when the message is the empty string, the only
falsy value a string `message` property can take. -/
def orFallback (msg : String) : String :=
  if msg = "" then fallbackMessage else msg

/-- The state batch observable while the request is in flight:
`setLoading(true); setError(null); setResponse(null)`
(App.jsx lines 16-18). -/
def loadingState (s : AppState) : AppState :=
  { s with loading := true, error := none, response := none }

/-- Resolution of the try/catch/finally around the fetch
(App.jsx lines 20-42) applied to the in-flight state `s1`:
a non-ok response throws `HTTP error! status: <code>` into the catch,
a decodable ok response stores the parsed body, an undecodable body or
a rejected fetch reaches the catch with the exception message; the
catch stores `err.message || fallback`; finally clears `loading`. -/
def resolveState (s1 : AppState) : FetchResult → AppState
  | .resolved status body =>
      if statusOk status then
        match body with
        | .ok data => { s1 with response := some data, loading := false }
        | .error msg => { s1 with error := some (orFallback msg), loading := false }
      else
        { s1 with
            error := some (orFallback ("HTTP error! status: " ++ toString status))
            loading := false }
  | .failed msg => { s1 with error := some (orFallback msg), loading := false }

/-- One call of `handleSearch` (App.jsx lines 10-43): the list of
render-observable states it produces, paired with the list of network
requests it issues.  An empty trimmed query sets the validation error
and returns before any fetch; otherwise the loading batch is observable
first, then the resolved state, and exactly one request goes out. -/
def handleSearchRun (s : AppState) (outcome : FetchResult) :
    List AppState × List Request :=
  if jsTrim s.query = "" then
    ([{ s with error := some validationMessage }], [])
  else
    ([loadingState s, resolveState (loadingState s) outcome],
     [generateRequest (jsTrim s.query)])

/-- The render-observable states of one `handleSearch` call. -/
def observableTrace (s : AppState) (outcome : FetchResult) : List AppState :=
  (handleSearchRun s outcome).1

/-- The requests issued by one `handleSearch` call. -/
def issuedRequests (s : AppState) (outcome : FetchResult) : List Request :=
  (handleSearchRun s outcome).2

/-- The state after one `handleSearch` call has fully resolved. -/
def handleSearch (s : AppState) (outcome : FetchResult) : AppState :=
  (observableTrace s outcome).getLastD s

/-- The `handleKeyPress` entry point (App.jsx lines 45-49): the search
runs only when the pressed key is Enter and `loading` is false. -/
def handleKeyPress (s : AppState) (key : String) (outcome : FetchResult) :
    AppState :=
  if key = "Enter" && !s.loading then handleSearch s outcome else s

/-- Requests issued by one `handleKeyPress` call. -/
def handleKeyPressRequests (s : AppState) (key : String)
    (outcome : FetchResult) : List Request :=
  if key = "Enter" && !s.loading then issuedRequests s outcome else []

/-- The submit button (App.jsx lines 84-86): `onClick={handleSearch}`
with `disabled={loading}`; a disabled button fires no click event. -/
def clickSearch (s : AppState) (outcome : FetchResult) : AppState :=
  if s.loading then s else handleSearch s outcome

/-- Requests issued by one click on the submit button. -/
def clickSearchRequests (s : AppState) (outcome : FetchResult) :
    List Request :=
  if s.loading then [] else issuedRequests s outcome

/-- User-interface events that can reach the controller: editing the
input (its `onChange`, disabled while loading, App.jsx lines 77-83),
a key press in the input, and a click on the submit button. -/
inductive Event where
  | edit (text : String)
  | pressKey (key : String) (outcome : FetchResult)
  | click (outcome : FetchResult)

/-- Observable states produced by one event, from state `s`.  The input
and the button are both disabled while `loading` is true, and
`handleKeyPress` additionally checks `!loading` itself. -/
def eventTrace (s : AppState) : Event → List AppState
  | .edit t => if s.loading then [s] else [{ s with query := t }]
  | .pressKey k o =>
      if k = "Enter" && !s.loading then observableTrace s o else [s]
  | .click o => if s.loading then [s] else observableTrace s o

/-- The state an event leaves the application in. -/
def applyEvent (s : AppState) (e : Event) : AppState :=
  (eventTrace s e).getLastD s

/-- All observable states along a sequence of events, from state `s`
(excluding `s` itself). -/
def runTrace (s : AppState) : List Event → List AppState
  | [] => []
  | e :: es => eventTrace s e ++ runTrace (applyEvent s e) es

/-- All states an event sequence makes observable, starting from the
initial render. -/
def reachableStates (events : List Event) : List AppState :=
  initialState :: runTrace initialState events

/-- The error banner renders iff `error` is set (App.jsx line 105). -/
def errorActive (s : AppState) : Bool := s.error.isSome

/-- The results panel renders iff `response` is set (App.jsx line 117). -/
def successActive (s : AppState) : Bool := s.response.isSome

/-- The loading indicator renders iff `loading` (App.jsx lines 88-92). -/
def loadingActive (s : AppState) : Bool := s.loading

/-- The idle panel renders iff no response, not loading, and no error
(App.jsx line 176). -/
def idleActive (s : AppState) : Bool :=
  !s.response.isSome && !s.loading && !s.error.isSome

/-- How many of the four lifecycle facets are active at once. -/
def activeCount (s : AppState) : Nat :=
  (if errorActive s then 1 else 0) + (if successActive s then 1 else 0)
    + (if loadingActive s then 1 else 0) + (if idleActive s then 1 else 0)

/-- Number of times `loading` falls from true to false along a list of
observable states, given its value before the first of them. -/
def clearCount : Bool → List AppState → Nat
  | _, [] => 0
  | prev, t :: ts =>
      (if prev && !t.loading then 1 else 0) + clearCount t.loading ts

/-- A demonstration JSON body, the one named in the spec scenario. -/
def demoBody : Json :=
  Json.obj [("summary", Json.str "S"), ("relevant_docs", Json.arr [])]

/-- A state used as a concrete sample in several witnesses. -/
def sampleIdle : AppState :=
  { query := "contract law", response := none, loading := false, error := none }

/-- Invariant maintained by every reachable observable state: while
`loading` is set nothing else is, and a stored response coexists with
an error message only when that message is the validation message. -/
def stateInvariant (s : AppState) : Prop :=
  (s.loading = true → s.response = none ∧ s.error = none) ∧
    (s.response.isSome = true → s.error.isSome = true →
      s.error = some validationMessage)

/-- An event sequence reaching a state in which the stale Success
result and a fresh Error are shown together: submit a query, let it
succeed, clear the input, submit again. -/
def demoEvents : List Event :=
  [.edit "a", .click (.resolved 200 (.ok demoBody)), .edit "",
   .click (.failed "")]

/-- The offending state those events reach. -/
def staleSuccessState : AppState :=
  { query := "", response := some demoBody, loading := false,
    error := some validationMessage }

/-- The message the thrown `HTTP error` exception carries is never the
empty string, so the `err.message || fallback` fallback never fires for
it. -/
theorem httpErrorMessage_ne_empty (status : Nat) :
    ¬ ("HTTP error! status: " ++ toString status) = "" := by
  intro h
  have h2 := congrArg String.length h
  rw [String.length_append] at h2
  have h3 : "HTTP error! status: ".length = 20 := by decide
  have h4 : "".length = 0 := by decide
  omega

/-- An empty trimmed query makes `handleSearch` set the validation
error and change nothing else. -/
theorem handleSearch_blank (s : AppState) (o : FetchResult)
    (h : jsTrim s.query = "") :
    handleSearch s o = { s with error := some validationMessage } := by
  simp [handleSearch, observableTrace, handleSearchRun, h, List.getLastD]

/-- A non-empty trimmed query makes `handleSearch` resolve the fetch
from the loading batch. -/
theorem handleSearch_nonblank (s : AppState) (o : FetchResult)
    (h : ¬ jsTrim s.query = "") :
    handleSearch s o = resolveState (loadingState s) o := by
  simp [handleSearch, observableTrace, handleSearchRun, h, List.getLastD]

/-- Resolution always leaves `loading` false. -/
theorem resolveState_loading (s1 : AppState) (o : FetchResult) :
    (resolveState s1 o).loading = false := by
  cases o with
  | resolved status body =>
      cases body <;> simp [resolveState] <;> split <;> simp
  | failed msg => simp [resolveState]

/-- Resolution never touches the `query` cell. -/
theorem resolveState_query (s1 : AppState) (o : FetchResult) :
    (resolveState s1 o).query = s1.query := by
  cases o with
  | resolved status body =>
      cases body <;> simp [resolveState] <;> split <;> simp
  | failed msg => simp [resolveState]

/-- C1: for every raw input whose trimmed form is empty (the empty
string or whitespace-only), `submit` sets the error to
`Please enter a search query`, leaves the other cells as they were, and
performs no network call. -/
theorem blank_submit_validation_error (s : AppState) (o : FetchResult)
    (h : jsTrim s.query = "") :
    handleSearch s o = { s with error := some validationMessage } ∧
      (handleSearch s o).error = some "Please enter a search query" ∧
      issuedRequests s o = [] := by
  refine ⟨handleSearch_blank s o h, ?_, ?_⟩
  · rw [handleSearch_blank s o h]
    rfl
  · simp [issuedRequests, handleSearchRun, h]

/-- C1 witness: a whitespace-only input is rejected with the validation
message and no request. -/
theorem blank_submit_validation_error_witness :
    handleSearch ⟨"  ", none, false, none⟩ (.failed "x")
        = ⟨"  ", none, false, some "Please enter a search query"⟩ ∧
      issuedRequests ⟨"  ", none, false, none⟩ (.failed "x") = [] := by
  have h := blank_submit_validation_error ⟨"  ", none, false, none⟩
    (.failed "x") (by decide)
  exact ⟨h.1, h.2.2⟩

/-- C2: for every raw input whose trimmed form is non-empty, `submit`
issues exactly one request: `POST http://localhost:8000/generate` with
header `Content-Type: application/json` and a JSON body whose `query`
field equals the trimmed input. -/
theorem nonblank_submit_single_request (s : AppState) (o : FetchResult)
    (h : ¬ jsTrim s.query = "") :
    issuedRequests s o =
      [{ method := "POST"
         url := "http://localhost:8000/generate"
         contentType := "application/json"
         body := Json.obj [("query", Json.str (jsTrim s.query))] }] := by
  simp [issuedRequests, handleSearchRun, h, generateRequest]

/-- C2 witness: an input with surrounding whitespace produces one POST
whose body carries the trimmed text. -/
theorem nonblank_submit_single_request_witness :
    issuedRequests ⟨" contract law ", none, false, none⟩ (.failed "x") =
      [{ method := "POST"
         url := "http://localhost:8000/generate"
         contentType := "application/json"
         body := Json.obj [("query", Json.str "contract law")] }] := by
  have h := nonblank_submit_single_request ⟨" contract law ", none, false, none⟩
    (.failed "x") (by decide)
  rw [h]
  rfl

/-- C3: if the network call resolves with a success status and a
decodable JSON body, the resulting state is Success carrying exactly
the parsed body (response set to it, error cleared, loading cleared,
query untouched). -/
theorem ok_response_success_state (s : AppState) (status : Nat) (data : Json)
    (h : ¬ jsTrim s.query = "") (hok : statusOk status = true) :
    handleSearch s (.resolved status (.ok data)) =
      { query := s.query, response := some data, loading := false,
        error := none } := by
  rw [handleSearch_nonblank s _ h]
  simp [resolveState, hok, loadingState]

/-- C3 witness: status 200 with body
`{"summary":"S","relevant_docs":[]}` yields Success of exactly that
body. -/
theorem ok_response_success_state_witness :
    handleSearch sampleIdle (.resolved 200 (.ok demoBody)) =
      { query := "contract law", response := some demoBody,
        loading := false, error := none } := by
  have h := ok_response_success_state sampleIdle 200 demoBody
    (by decide) (by decide)
  rw [h]
  rfl

/-- C4: if the network call resolves with a non-success HTTP status
code, the resulting state is Error with message
`HTTP error! status: <code>` (response stays cleared, loading
cleared). -/
theorem http_error_status_state (s : AppState) (status : Nat)
    (body : Except String Json)
    (h : ¬ jsTrim s.query = "") (hbad : statusOk status = false) :
    handleSearch s (.resolved status body) =
      { query := s.query, response := none, loading := false,
        error := some ("HTTP error! status: " ++ toString status) } := by
  rw [handleSearch_nonblank s _ h]
  cases body <;>
    simp [resolveState, hbad, loadingState, orFallback,
      httpErrorMessage_ne_empty status]

/-- C4 witness: status 404 yields the state with error
`HTTP error! status: 404`. -/
theorem http_error_status_state_witness :
    handleSearch sampleIdle (.resolved 404 (.ok Json.null)) =
      { query := "contract law", response := none, loading := false,
        error := some "HTTP error! status: 404" } := by
  have h := http_error_status_state sampleIdle 404 (.ok Json.null)
    (by decide) (by decide)
  rw [h]
  rfl

/-- C5: on transport failure, including an undecodable response body on
a success status, `submit` ends in Error carrying the underlying
failure's message, and carries the fixed fallback message exactly when
the underlying failure provides no message (its message string is
empty). -/
theorem transport_failure_error_state (s : AppState) (status : Nat)
    (msg : String)
    (h : ¬ jsTrim s.query = "") (hok : statusOk status = true) :
    ((¬ msg = "" → (handleSearch s (.failed msg)).error = some msg) ∧
      (msg = "" → (handleSearch s (.failed msg)).error = some fallbackMessage)) ∧
    ((¬ msg = "" →
        (handleSearch s (.resolved status (.error msg))).error = some msg) ∧
      (msg = "" →
        (handleSearch s (.resolved status (.error msg))).error
          = some fallbackMessage)) := by
  rw [handleSearch_nonblank s _ h, handleSearch_nonblank s _ h]
  refine ⟨⟨fun hne => ?_, fun he => ?_⟩, ⟨fun hne => ?_, fun he => ?_⟩⟩ <;>
    simp [resolveState, hok, loadingState, orFallback, *]

/-- C5 witness: a failure with message `boom` surfaces `boom`; a
failure with an empty message surfaces the fallback text. -/
theorem transport_failure_error_state_witness :
    (handleSearch sampleIdle (.failed "boom")).error = some "boom" ∧
      (handleSearch sampleIdle (.failed "")).error =
        some "Failed to fetch response. Please ensure the backend is running." ∧
      (handleSearch sampleIdle (.resolved 200 (.error "bad json"))).error =
        some "bad json" := by
  refine ⟨(transport_failure_error_state sampleIdle 200 "boom"
      (by decide) (by decide)).1.1 (by decide),
    ?_,
    (transport_failure_error_state sampleIdle 200 "bad json"
      (by decide) (by decide)).2.1 (by decide)⟩
  have h := (transport_failure_error_state sampleIdle 200 ""
    (by decide) (by decide)).1.2 rfl
  rw [h]
  rfl

/-- C7: for every non-empty trimmed submission, the first observable
state of the new search shows Loading with both the previous response
and the previous error already cleared: no stale result is displayed
during the new search. -/
theorem loading_batch_clears_stale (s : AppState) (o : FetchResult)
    (h : ¬ jsTrim s.query = "") :
    (observableTrace s o).head? =
      some { s with loading := true, error := none, response := none } := by
  simp [observableTrace, handleSearchRun, h, loadingState]

/-- C7 witness: after a prior Success and a prior Error message, the
first observable state of a new search carries neither. -/
theorem loading_batch_clears_stale_witness :
    (observableTrace ⟨"q", some demoBody, false, some "old error"⟩
        (.failed "x")).head? =
      some ⟨"q", none, true, none⟩ := by
  have h := loading_batch_clears_stale
    ⟨"q", some demoBody, false, some "old error"⟩ (.failed "x") (by decide)
  rw [h]

/-- C10: `submit` never modifies the stored query text: every
observable state of the call, and the final state, keep the query cell
exactly as it was, whatever the input and the request outcome. -/
theorem submit_preserves_query (s : AppState) (o : FetchResult) :
    (observableTrace s o).all (fun t => t.query == s.query) = true ∧
      (handleSearch s o).query = s.query := by
  by_cases h : jsTrim s.query = ""
  · rw [handleSearch_blank s o h]
    simp [observableTrace, handleSearchRun, h]
  · rw [handleSearch_nonblank s o h]
    have hq := resolveState_query (loadingState s) o
    simp [loadingState] at hq
    constructor
    · simp [observableTrace, handleSearchRun, h, loadingState, hq]
    · simp [loadingState, hq]

/-- C6: for every non-empty trimmed submission, once the request
resolves, the Loading state is cleared exactly once along the call's
observable states, whatever the outcome; and a JSON decode failure on a
success status is routed to Error like a transport failure (error set,
no response stored, loading cleared). -/
theorem loading_cleared_exactly_once (s : AppState) (o : FetchResult)
    (status : Nat) (msg : String)
    (h : ¬ jsTrim s.query = "") (hok : statusOk status = true) :
    clearCount s.loading (observableTrace s o) = 1 ∧
      ((handleSearch s (.resolved status (.error msg))).error.isSome = true ∧
        (handleSearch s (.resolved status (.error msg))).response = none ∧
        (handleSearch s (.resolved status (.error msg))).loading = false) := by
  constructor
  · simp [observableTrace, handleSearchRun, h, clearCount, loadingState,
      resolveState_loading]
  · rw [handleSearch_nonblank s _ h]
    simp [resolveState, hok, loadingState]

/-- C6 witness: one clearing of Loading on a transport failure, and a
decode failure on status 200 lands in Error with no response. -/
theorem loading_cleared_exactly_once_witness :
    clearCount sampleIdle.loading (observableTrace sampleIdle (.failed "x")) = 1 ∧
      (handleSearch sampleIdle (.resolved 200 (.error "bad"))).error.isSome = true := by
  have h := loading_cleared_exactly_once sampleIdle (.failed "x") 200 "bad"
    (by decide) (by decide)
  exact ⟨h.1, h.2.1⟩

/-- C9: while `loading` is true, both presentation-layer entry points
(the Enter key handler and the submit button, which is disabled) leave
the state unchanged and issue no request, so a submission already in
flight is never joined by a second one. -/
theorem loading_blocks_resubmission (s : AppState) (key : String)
    (o : FetchResult) (h : s.loading = true) :
    handleKeyPress s key o = s ∧ handleKeyPressRequests s key o = [] ∧
      clickSearch s o = s ∧ clickSearchRequests s o = [] := by
  simp [handleKeyPress, handleKeyPressRequests, clickSearch,
    clickSearchRequests, h]

/-- C9 witness: with a non-empty query and `loading` true, Enter and
the button both do nothing. -/
theorem loading_blocks_resubmission_witness :
    handleKeyPress ⟨"q", none, true, none⟩ "Enter" (.failed "x")
        = ⟨"q", none, true, none⟩ ∧
      clickSearchRequests ⟨"q", none, true, none⟩ (.failed "x") = [] := by
  have h := loading_blocks_resubmission ⟨"q", none, true, none⟩ "Enter"
    (.failed "x") rfl
  exact ⟨h.1, h.2.2.2⟩

/-- Resolving a fetch from the loading batch yields an invariant
state. -/
theorem stateInvariant_resolved (s : AppState) (o : FetchResult) :
    stateInvariant (resolveState (loadingState s) o) := by
  cases o with
  | resolved status body =>
      by_cases hok : statusOk status = true
      · cases body with
        | ok data =>
            exact ⟨by simp [resolveState, hok, loadingState],
              by simp [resolveState, hok, loadingState]⟩
        | error m =>
            exact ⟨by simp [resolveState, hok, loadingState],
              by simp [resolveState, hok, loadingState]⟩
      · have hok' : statusOk status = false := by simpa using hok
        cases body with
        | ok data =>
            exact ⟨by simp [resolveState, hok', loadingState],
              by simp [resolveState, hok', loadingState]⟩
        | error m =>
            exact ⟨by simp [resolveState, hok', loadingState],
              by simp [resolveState, hok', loadingState]⟩
  | failed m =>
      exact ⟨by simp [resolveState, loadingState],
        by simp [resolveState, loadingState]⟩

/-- Every observable state of a `handleSearch` call started from an
invariant non-loading state is invariant. -/
theorem stateInvariant_observable (s : AppState) (o : FetchResult)
    (hl : s.loading = false) :
    ∀ t ∈ observableTrace s o, stateInvariant t := by
  intro t ht
  by_cases h : jsTrim s.query = ""
  · simp [observableTrace, handleSearchRun, h] at ht
    subst ht
    exact ⟨by simp [hl], fun hr he => rfl⟩
  · simp [observableTrace, handleSearchRun, h] at ht
    rcases ht with h1 | h2
    · subst h1
      exact ⟨by simp [loadingState], by simp [loadingState]⟩
    · subst h2
      exact stateInvariant_resolved s o

/-- Every observable state of one user-interface event applied to an
invariant state is invariant. -/
theorem stateInvariant_eventTrace (s : AppState) (e : Event)
    (hs : stateInvariant s) :
    ∀ t ∈ eventTrace s e, stateInvariant t := by
  intro t ht
  cases e with
  | edit txt =>
      by_cases hl : s.loading = true
      · simp [eventTrace, hl] at ht
        subst ht
        exact hs
      · have hl' : s.loading = false := by simpa using hl
        simp [eventTrace, hl'] at ht
        subst ht
        exact ⟨by simp [hl'], fun hr he => hs.2 hr he⟩
  | pressKey k o =>
      by_cases hg : (k = "Enter" && !s.loading) = true
      · have hl : s.loading = false := by
          rcases Bool.and_eq_true_iff.mp hg with ⟨_, hb⟩
          simpa using hb
        simp [eventTrace, hg] at ht
        exact stateInvariant_observable s o hl t ht
      · simp [eventTrace, hg] at ht
        subst ht
        exact hs
  | click o =>
      by_cases hl : s.loading = true
      · simp [eventTrace, hl] at ht
        subst ht
        exact hs
      · have hl' : s.loading = false := by simpa using hl
        simp [eventTrace, hl'] at ht
        exact stateInvariant_observable s o hl' t ht

/-- An event trace is never empty. -/
theorem eventTrace_ne_nil (s : AppState) (e : Event) :
    ¬ eventTrace s e = [] := by
  cases e with
  | edit txt => by_cases hl : s.loading = true <;> simp [eventTrace, hl]
  | pressKey k o =>
      by_cases hg : (k = "Enter" && !s.loading) = true <;>
        simp [eventTrace, hg, observableTrace, handleSearchRun] <;>
          split <;> simp
  | click o =>
      by_cases hl : s.loading = true <;>
        simp [eventTrace, hl, observableTrace, handleSearchRun] <;>
          split <;> simp

/-- The last element of a non-empty list under `getLastD` is a
member. -/
theorem getLastD_mem_of_ne_nil {α : Type} (l : List α) (d : α)
    (h : ¬ l = []) : l.getLastD d ∈ l := by
  induction l generalizing d with
  | nil => exact absurd rfl h
  | cons a as ih =>
      rw [List.getLastD_cons]
      cases as with
      | nil => simp [List.getLastD]
      | cons b bs =>
          exact List.mem_cons_of_mem a (ih b (by simp))

/-- The state an event leaves behind is invariant when the state it
started from is. -/
theorem stateInvariant_applyEvent (s : AppState) (e : Event)
    (hs : stateInvariant s) : stateInvariant (applyEvent s e) := by
  exact stateInvariant_eventTrace s e hs _
    (getLastD_mem_of_ne_nil _ s (eventTrace_ne_nil s e))

/-- Every observable state along a run from an invariant state is
invariant. -/
theorem stateInvariant_runTrace (events : List Event) :
    ∀ s, stateInvariant s → ∀ t ∈ runTrace s events, stateInvariant t := by
  induction events with
  | nil =>
      intro s _ t ht
      simp [runTrace] at ht
  | cons e es ih =>
      intro s hs t ht
      rw [runTrace] at ht
      rcases List.mem_append.mp ht with h1 | h2
      · exact stateInvariant_eventTrace s e hs t h1
      · exact ih (applyEvent s e) (stateInvariant_applyEvent s e hs) t h2

/-- Every reachable observable state is invariant. -/
theorem stateInvariant_reachable (events : List Event) (s : AppState)
    (h : s ∈ reachableStates events) : stateInvariant s := by
  have hinit : stateInvariant initialState := by
    exact ⟨by simp [initialState], by simp [initialState]⟩
  rcases List.mem_cons.mp h with h1 | h2
  · subst h1
    exact hinit
  · exact stateInvariant_runTrace events initialState hinit s h2

/-- At least one of the four render facets is always active. -/
theorem activeCount_pos (s : AppState) : 1 ≤ activeCount s := by
  cases he : s.error.isSome <;> cases hr : s.response.isSome <;>
    cases hl : s.loading <;>
      simp [activeCount, errorActive, successActive, loadingActive,
        idleActive, he, hr, hl]

/-- C8 counterexample: a reachable state in which two of the four
lifecycle facets (a retained Success result and the validation Error)
are active at once, refuting the exactly-one claim.  The empty-query
validation branch sets the error without clearing the stored
response. -/
theorem exactly_one_active_refuted :
    staleSuccessState ∈ reachableStates demoEvents ∧
      ¬ activeCount staleSuccessState = 1 := by
  constructor
  · simp +decide [reachableStates, runTrace, eventTrace, applyEvent,
      observableTrace, handleSearchRun, loadingState, resolveState,
      statusOk, initialState, staleSuccessState, demoEvents]
  · decide

/-- C8 amended: in every reachable observable state, Loading is never
active together with Success, Error, or Idle, and at least one facet is
active; exactly-one can fail in only one way: a retained Success result
shown together with the empty-query validation Error, in which case
exactly two facets are active. -/
theorem reachable_active_facets (events : List Event) (s : AppState)
    (h : s ∈ reachableStates events) :
    (s.loading = true → s.response = none ∧ s.error = none) ∧
      1 ≤ activeCount s ∧
      (¬ activeCount s = 1 →
        activeCount s = 2 ∧ s.response.isSome = true ∧
          s.error = some validationMessage) := by
  have hi := stateInvariant_reachable events s h
  refine ⟨hi.1, activeCount_pos s, fun hne => ?_⟩
  cases hl : s.loading with
  | true =>
      rcases hi.1 hl with ⟨hr, he⟩
      exact absurd (by simp [activeCount, errorActive, successActive,
        loadingActive, idleActive, hl, hr, he]) hne
  | false =>
      cases he : s.error.isSome with
      | false =>
          cases hr : s.response.isSome with
          | false =>
              exact absurd (by simp [activeCount, errorActive,
                successActive, loadingActive, idleActive, hl, hr, he]) hne
          | true =>
              exact absurd (by simp [activeCount, errorActive,
                successActive, loadingActive, idleActive, hl, hr, he]) hne
      | true =>
          cases hr : s.response.isSome with
          | false =>
              exact absurd (by simp [activeCount, errorActive,
                successActive, loadingActive, idleActive, hl, hr, he]) hne
          | true =>
              refine ⟨by simp [activeCount, errorActive, successActive,
                loadingActive, idleActive, hl, hr, he], rfl, hi.2 hr he⟩

/-- C8 amended witness: the initial render is reachable by the empty
event sequence and satisfies the amended facet discipline. -/
theorem reachable_active_facets_witness :
    (initialState.loading = true →
        initialState.response = none ∧ initialState.error = none) ∧
      1 ≤ activeCount initialState ∧
      (¬ activeCount initialState = 1 →
        activeCount initialState = 2 ∧
          initialState.response.isSome = true ∧
          initialState.error = some validationMessage) := by
  exact reachable_active_facets [] initialState
    (by simp [reachableStates, runTrace])

end SearchPortal
